import Mathlib

/-
  Verification of the upload finalization and status-propagation pipeline of
  the data-warehouse-hive frontend.

  Shallow embedding of:
  - frontend/apps/web/src/app/api/upload/[[...slug]]/route.ts
      (onUploadCreate, onUploadFinish hooks of the tus Server)
  - frontend/apps/web/src/app/api/upload-status/[id]/route.ts
      (GET status projection)

  External collaborators (the S3 chunk store, the fetch call to the Processing
  Service, and the tus protocol engine) are modelled as abstract environments:
  the store is an association list from upload id to Upload record, and the
  Processing Service call is an oracle value describing which of the possible
  outcomes the fetch produced.
-/

/-- An upload record as the routes see it: the tus `Upload` object with its
    opaque `id`, declared `size` (JS `number | undefined`, hence `Option Nat`)
    and the open string-to-string `metadata` map.  An absent metadata object
    behaves like the empty map under the source's optional chaining. -/
structure Upload where
  id : String
  size : Option Nat
  metadata : List (String × String)
deriving Repr, DecidableEq

/-- Lookup of a key in a metadata map, mirroring JS property access
    (`metadata.key` is `undefined` when the key is absent). -/
def lookupMeta (m : List (String × String)) (k : String) : Option String :=
  (m.find? (fun p => p.1 == k)).map (fun p => p.2)

/-- JS truthiness of a possibly-absent string: `undefined` and the empty
    string are falsy, every other string is truthy. -/
def jsTruthy : Option String → Bool
  | none => false
  | some s => !s.isEmpty

/-- JS `a || b` for a possibly-absent string `a` with string default `b`. -/
def jsOrDefault (v : Option String) (d : String) : String :=
  match v with
  | none => d
  | some s => if s.isEmpty then d else s

/-- JS `String.prototype.includes`: `s` contains `pat` as a substring. -/
def includesSubstr (s pat : String) : Bool :=
  (s.splitOn pat).length > 1

/-- Result of the `onUploadCreate` hook: either creation is accepted with the
    returned metadata, or rejected by a thrown `{status_code, body}` object
    that the tus engine turns into an HTTP error before any bytes flow. -/
inductive CreateResult where
  | accepted (metadata : List (String × String))
  | rejected (status_code : Nat) (body : String)
deriving Repr, DecidableEq

/-- The configured size limit: `MAX_CSV_SIZE = 50 * 1024 * 1024` bytes. -/
def MAX_CSV_SIZE : Nat := 50 * 1024 * 1024

/-- The size guard `upload.size && upload.size > MAX_CSV_SIZE`: under JS
    truthiness an absent or zero `size` short-circuits the check to false. -/
def sizeExceedsMax : Option Nat → Bool
  | none => false
  | some s => if s = 0 then false else decide (MAX_CSV_SIZE < s)

/-- The `onUploadCreate` hook of `route.ts`: rejects with 400 when
    `metadata?.filetype` is not exactly `text/csv`, then with 413 when the
    declared size is truthy and exceeds `MAX_CSV_SIZE`, else accepts and
    returns the metadata unchanged. -/
def onUploadCreate (upload : Upload) : CreateResult :=
  if lookupMeta upload.metadata "filetype" ≠ some "text/csv" then
    CreateResult.rejected 400
      "Only CSV files are allowed. Please upload a file with \x27text/csv\x27 content type."
  else if sizeExceedsMax upload.size then
    CreateResult.rejected 413 "CSV file too large. Max size is 50MB."
  else
    CreateResult.accepted upload.metadata

/-- Projection of a `CreateResult` onto the HTTP status code of the
    rejection, `none` when creation was accepted. -/
def rejectionCode : CreateResult → Option Nat
  | CreateResult.accepted _ => none
  | CreateResult.rejected c _ => some c

/-- A JS error value as the catch block of `onUploadFinish` inspects it:
    thrown plain objects carry `status_code`/`body`; `Error` instances
    (`isError = true`) carry `name` and `message`. -/
structure JSError where
  status_code : Option Nat
  body : Option String
  message : Option String
  isError : Bool
  name : String
deriving Repr, DecidableEq

/-- The possible outcomes of the single `fetch` to the Processing Service,
    as seen by the try block of `onUploadFinish`:
    - `timeoutAbort`: the 30s `AbortController` fired, `fetch` rejects with a
      `DOMException` named `AbortError`;
    - `connectionFailure msg`: transport-level failure, `fetch` rejects with a
      `TypeError` whose message contains `fetch failed`;
    - `httpError status errorText`: the response arrived with `ok = false`;
    - `result success error`: a 2xx response whose JSON body parsed to
      `{success, error?}`. -/
inductive ProcessingOutcome where
  | timeoutAbort
  | connectionFailure (msg : String)
  | httpError (status : Nat) (errorText : String)
  | result (success : Bool) (error : Option String)
deriving Repr, DecidableEq

/-- The try block of `onUploadFinish`: each non-success outcome is turned into
    a thrown value (the code itself throws `{status_code: 500, body}` objects
    for non-ok responses and for `success:false` results; rejected fetches
    throw the `Error` instances produced by the runtime). `success:true`
    completes the block normally; no metadata write occurs on that path, the
    source only logs. -/
def tryBody (outcome : ProcessingOutcome) : Except JSError Unit :=
  match outcome with
  | ProcessingOutcome.timeoutAbort =>
      Except.error { status_code := none, body := none,
                     message := some "This operation was aborted",
                     isError := true, name := "AbortError" }
  | ProcessingOutcome.connectionFailure msg =>
      Except.error { status_code := none, body := none,
                     message := some msg, isError := true, name := "TypeError" }
  | ProcessingOutcome.httpError _status errorText =>
      Except.error { status_code := some 500,
                     body := some ("Failed to process CSV: " ++ errorText),
                     message := none, isError := false, name := "" }
  | ProcessingOutcome.result success error =>
      if success then Except.ok ()
      else Except.error { status_code := some 500,
                          body := some (jsOrDefault error "CSV processing failed"),
                          message := none, isError := false, name := "" }

/-- The error-message computation of the catch block.  Branch order follows
    the source: a string `body` property wins, then a string `message`
    property, then the `instanceof Error` classification (timed out /
    service not available / plain message).  Because every `Error` instance
    has a string `message` property, the second branch captures `Error`
    values before the classification branch can run; that branch is kept here
    as in the source. -/
def computeErrorMessage (e : JSError) : String :=
  if e.body.isSome then
    e.body.getD ""
  else if e.message.isSome then
    e.message.getD ""
  else if e.isError then
    if e.name = "AbortError" then
      "CSV processing timed out. Please try again with a smaller file."
    else if includesSubstr (e.message.getD "") "fetch failed" then
      "CSV processing service is not available. Please check if the processing service is running."
    else
      e.message.getD "Unknown error during CSV processing"
  else
    "Unknown error during CSV processing"

/-- What `onUploadFinish` produced: whether a value was raised out of the
    hook (`raised`), the upload record as it stands after the hook, and the
    error message the catch block computed and logged, if any. -/
structure HookResult where
  raised : Option JSError
  upload : Upload
  loggedErrorMessage : Option String
deriving Repr, DecidableEq

/-- The `onUploadFinish` hook of `route.ts`: runs the try block; on a thrown
    value the catch block computes `errorMessage` and writes it to the
    console only — the source comments announce storing the error in the
    upload metadata, but no metadata write is performed on either path, and
    the catch block ends without rethrowing; the hook returns `{}`. -/
def onUploadFinish (upload : Upload) (outcome : ProcessingOutcome) : HookResult :=
  match tryBody outcome with
  | Except.ok _ =>
      { raised := none, upload := upload, loggedErrorMessage := none }
  | Except.error e =>
      { raised := none, upload := upload,
        loggedErrorMessage := some (computeErrorMessage e) }

/-- Modelled from the spec: the tus protocol engine (the `@tus/server`
    dependency, an external collaborator not present in the repository)
    invokes the completion hook synchronously within the completion
    transition and then answers the client's final chunk request; a value
    raised out of the hook aborts that response with the raised status and
    body, otherwise the engine reports the transfer complete. -/
inductive EngineResponse where
  | complete
  | aborted (status_code : Nat) (body : String)
deriving Repr, DecidableEq

/-- Modelled from the spec: response the protocol engine sends to the final
    chunk request after running the completion hook. -/
def finalChunkResponse (u : Upload) (outcome : ProcessingOutcome) : EngineResponse :=
  match (onUploadFinish u outcome).raised with
  | none => EngineResponse.complete
  | some e =>
      EngineResponse.aborted (e.status_code.getD 500) (e.body.getD "Internal Server Error")

/-- The JSON body of a status-endpoint response, one shape per branch of the
    route: the error branch carries the `processing_error` text, the success
    branch the optional `processing_completed_at` timestamp, the unknown
    branch its fixed message, and the not-found branch its `error` field. -/
inductive StatusBody where
  | errorStatus (error : String) (uploadId : String)
  | successStatus (uploadId : String) (completedAt : Option String)
  | unknownStatus (uploadId : String) (message : String)
  | notFoundBody (error : String)
deriving Repr, DecidableEq

/-- An HTTP response of the status endpoint: `NextResponse.json` defaults to
    status 200 unless the route passes `{status: 404}`. -/
structure HttpResponse where
  status_code : Nat
  body : StatusBody
deriving Repr, DecidableEq

/-- The state of the chunk store's metadata facility, the only shared mutable
    state of this core: upload records keyed by id. -/
abbrev Store := List (String × Upload)

/-- Modelled behaviour of the external `S3Store.getUpload` per the spec's
    Chunk Store contract: look the id up, signalling absence for an id that
    was never created. -/
def getUpload (store : Store) (id : String) : Option Upload :=
  (store.find? (fun p => p.1 == id)).map (fun p => p.2)

/-- The `GET` handler of `upload-status/[id]/route.ts`, with explicit state
    passing so that mutation of the store would be visible in the result:
    absent upload gives a 404 `Upload not found`; a truthy
    `metadata.processing_error` gives the error projection; otherwise
    `processing_status === "success"` gives the success projection with
    `processing_completed_at`; otherwise the unknown projection. -/
def statusGET (store : Store) (uploadId : String) : HttpResponse × Store :=
  match getUpload store uploadId with
  | none =>
      ({ status_code := 404, body := StatusBody.notFoundBody "Upload not found" }, store)
  | some upload =>
      let metadata := upload.metadata
      if jsTruthy (lookupMeta metadata "processing_error") then
        ({ status_code := 200,
           body := StatusBody.errorStatus
             ((lookupMeta metadata "processing_error").getD "") uploadId }, store)
      else if lookupMeta metadata "processing_status" = some "success" then
        ({ status_code := 200,
           body := StatusBody.successStatus uploadId
             (lookupMeta metadata "processing_completed_at") }, store)
      else
        ({ status_code := 200,
           body := StatusBody.unknownStatus uploadId "Processing status unknown" }, store)

/-- A concrete completed CSV upload used as the test vehicle for the
    finalization claims. -/
def sampleUpload : Upload :=
  { id := "file1", size := some 100,
    metadata := [("filename", "a.csv"), ("filetype", "text/csv")] }

/-- A concrete store state holding an upload whose metadata carries both a
    non-empty processing error and a success marker. -/
def conflictedUpload : Upload :=
  { id := "file2", size := some 10,
    metadata := [("processing_error", "boom"), ("processing_status", "success")] }

/-- C1: the code evaluated at the failing input. After a completed upload
    whose Processing Service call returns `success:true`, the hook leaves the
    metadata unchanged (it only logs), so the status endpoint answers
    `unknown` with no `completedAt` field, not `success`. -/
theorem success_outcome_not_recorded :
    (statusGET
        [("file1", (onUploadFinish sampleUpload (ProcessingOutcome.result true none)).upload)]
        "file1").1
      = { status_code := 200,
          body := StatusBody.unknownStatus "file1" "Processing status unknown" } := by
  rfl

/-- C2: the code evaluated at the failing input. After a completed upload
    whose Processing Service call returns `{success:false, error:"X"}`, no
    `processing_error` is written, so the status endpoint answers `unknown`,
    not `error` with message `X`. -/
theorem failure_outcome_not_recorded :
    (statusGET
        [("file1", (onUploadFinish sampleUpload (ProcessingOutcome.result false (some "X"))).upload)]
        "file1").1
      = { status_code := 200,
          body := StatusBody.unknownStatus "file1" "Processing status unknown" } := by
  rfl

/-- C3: the code evaluated at the failing inputs. After a timeout abort and
    after a transport-level connection failure, no error outcome is recorded,
    so the status endpoint answers `unknown` in both cases rather than an
    `error` carrying a distinguishing message. -/
theorem transport_failure_outcome_not_recorded :
    ((statusGET
        [("file1", (onUploadFinish sampleUpload ProcessingOutcome.timeoutAbort).upload)]
        "file1").1
      = { status_code := 200,
          body := StatusBody.unknownStatus "file1" "Processing status unknown" })
    ∧ ((statusGET
        [("file1", (onUploadFinish sampleUpload (ProcessingOutcome.connectionFailure "fetch failed")).upload)]
        "file1").1
      = { status_code := 200,
          body := StatusBody.unknownStatus "file1" "Processing status unknown" }) :=
  ⟨rfl, rfl⟩

/-- C4: for every completed upload and every Processing Service outcome
    (explicit failure, non-2xx response, timeout, connection failure), the
    finalization hook raises nothing out of `onUploadFinish`, and the
    protocol engine's response to the final chunk request reports the
    transfer complete. -/
theorem hook_never_raises (u : Upload) (o : ProcessingOutcome) :
    (onUploadFinish u o).raised = none ∧ finalChunkResponse u o = EngineResponse.complete := by
  cases h : tryBody o <;> simp [onUploadFinish, finalChunkResponse, h]

/-- C5: querying status for an id for which no upload exists in the store
    returns the 404 not-found response, which is distinct from every
    unknown-status response. -/
theorem status_not_found_distinct (store : Store) (id : String)
    (h : getUpload store id = none) :
    (statusGET store id).1.status_code = 404
    ∧ (statusGET store id).1.body = StatusBody.notFoundBody "Upload not found"
    ∧ ∀ uid msg, (statusGET store id).1.body ≠ StatusBody.unknownStatus uid msg := by
  simp [statusGET, h]

/-- C5 witness: the empty store at a concrete id. -/
theorem status_not_found_distinct_witness :
    (statusGET [] "missing").1.status_code = 404
    ∧ (statusGET [] "missing").1.body = StatusBody.notFoundBody "Upload not found"
    ∧ ∀ uid msg, (statusGET [] "missing").1.body ≠ StatusBody.unknownStatus uid msg :=
  status_not_found_distinct [] "missing" rfl

/-- C6: every create request whose metadata filetype is not `text/csv` is
    rejected by `onUploadCreate` with status 400 and the human-readable
    only-CSV message, before any bytes are accepted. -/
theorem create_rejects_non_csv (u : Upload)
    (h : lookupMeta u.metadata "filetype" ≠ some "text/csv") :
    onUploadCreate u
      = CreateResult.rejected 400
          "Only CSV files are allowed. Please upload a file with \x27text/csv\x27 content type." := by
  simp [onUploadCreate, h]

/-- C6 witness: a JSON-typed create request. -/
theorem create_rejects_non_csv_witness :
    onUploadCreate { id := "u", size := some 10, metadata := [("filetype", "application/json")] }
      = CreateResult.rejected 400
          "Only CSV files are allowed. Please upload a file with \x27text/csv\x27 content type." :=
  create_rejects_non_csv _ (by decide)

/-- C7 as stated is false: a 60 MiB create request whose filetype is
    `application/json` exceeds the 50 MiB limit yet is rejected with status
    400 (the filetype check fires first), not with a 413-class error. -/
theorem oversized_non_csv_rejected_400_not_413 :
    rejectionCode (onUploadCreate
      { id := "u60", size := some (60 * 1024 * 1024),
        metadata := [("filetype", "application/json"), ("filename", "a.json")] }) = some 400
    ∧ rejectionCode (onUploadCreate
      { id := "u60", size := some (60 * 1024 * 1024),
        metadata := [("filetype", "application/json"), ("filename", "a.json")] }) ≠ some 413 := by
  constructor <;> decide

/-- C7 amended: every create request whose filetype is `text/csv` and whose
    declared size exceeds the 50 MiB limit is rejected with status 413 and
    the size-limit message. -/
theorem create_rejects_oversized_csv (u : Upload) (s : Nat)
    (hft : lookupMeta u.metadata "filetype" = some "text/csv")
    (hs : u.size = some s) (hbig : MAX_CSV_SIZE < s) :
    onUploadCreate u = CreateResult.rejected 413 "CSV file too large. Max size is 50MB." := by
  have hz : s ≠ 0 := by
    intro h0
    rw [h0] at hbig
    simp [MAX_CSV_SIZE] at hbig
  simp [onUploadCreate, hft, sizeExceedsMax, hs, hz, hbig]

/-- C7 amended witness: a 60 MiB CSV create request. -/
theorem create_rejects_oversized_csv_witness :
    onUploadCreate { id := "u", size := some 62914560, metadata := [("filetype", "text/csv")] }
      = CreateResult.rejected 413 "CSV file too large. Max size is 50MB." :=
  create_rejects_oversized_csv _ 62914560 rfl rfl (by decide)

/-- C8: the status query is a pure projection: it returns the store
    unchanged, and a repeated query on the resulting store state returns the
    same response. -/
theorem status_query_is_pure (store : Store) (id : String) :
    (statusGET store id).2 = store
    ∧ (statusGET (statusGET store id).2 id).1 = (statusGET store id).1 := by
  have hframe : (statusGET store id).2 = store := by
    unfold statusGET
    cases getUpload store id
    · rfl
    · dsimp only
      split
      · rfl
      · split <;> rfl
  exact ⟨hframe, by rw [hframe]⟩

/-- C9: for an existing upload whose metadata carries both a non-empty
    `processing_error` and `processing_status = success`, the status endpoint
    returns the error projection with the `processing_error` message: the
    error field takes precedence. -/
theorem error_takes_precedence_over_success (store : Store) (id : String) (u : Upload)
    (msg : String)
    (hget : getUpload store id = some u)
    (herr : lookupMeta u.metadata "processing_error" = some msg)
    (hne : msg.isEmpty = false)
    (hsucc : lookupMeta u.metadata "processing_status" = some "success") :
    (statusGET store id).1 = { status_code := 200, body := StatusBody.errorStatus msg id } := by
  simp [statusGET, hget, herr, jsTruthy, hne]

/-- C9 witness: a store holding `conflictedUpload`. -/
theorem error_takes_precedence_over_success_witness :
    (statusGET [("file2", conflictedUpload)] "file2").1
      = { status_code := 200, body := StatusBody.errorStatus "boom" "file2" } :=
  error_takes_precedence_over_success _ _ conflictedUpload "boom" rfl rfl rfl rfl

/-- C10: when the declared size is absent or zero, the size guard is
    short-circuited and creation is accepted whenever the filetype check
    passes. -/
theorem size_check_skipped_when_absent_or_zero (u : Upload)
    (hft : lookupMeta u.metadata "filetype" = some "text/csv")
    (hsz : u.size = none ∨ u.size = some 0) :
    onUploadCreate u = CreateResult.accepted u.metadata := by
  cases hsz with
  | inl h => simp [onUploadCreate, hft, sizeExceedsMax, h]
  | inr h => simp [onUploadCreate, hft, sizeExceedsMax, h]

/-- C10 witness: a CSV create request with no declared size. -/
theorem size_check_skipped_witness :
    onUploadCreate { id := "u0", size := none, metadata := [("filetype", "text/csv")] }
      = CreateResult.accepted [("filetype", "text/csv")] :=
  size_check_skipped_when_absent_or_zero _ rfl (Or.inl rfl)
